import Mathlib

/-!
Verification of the GDP dashboard's data-transformation pipeline
(`streamlit_app.py`): load (melt wide→long), filter by countries and year
range, pivot for charting, and per-country growth-metric computation.

Modelling conventions:
* a float GDP cell is `Option ℚ`, where `none` stands for NaN/missing and
  `some q` for the finite float value `q` (exact rational arithmetic stands
  in for IEEE arithmetic on the values the pipeline actually produces);
* a pandas positional lookup `.iat[0]` that raises `IndexError` on an empty
  frame is `List.head?` returning `none`; the script's bare
  `except Exception` handler around the per-country metric block is the
  `unavailable` constructor;
* `pivot`'s duplicate-key `ValueError` is the `DataIntegrityError.dup` value
  of an `Except` result.
-/

namespace GDP

/-- One wide-format CSV row: a country code plus, for each year column,
either a parsed float value (`some q`) or NaN for a blank cell (`none`). -/
structure RawRecord where
  country : String
  gdp : Int → Option ℚ

/-- One long-format observation row, as produced by
`raw_df.melt(id_vars=['Country Code'], ...)` followed by
`pd.to_numeric` on the year column. -/
structure Row where
  country : String
  year : Int
  gdp : Option ℚ
deriving DecidableEq

/-- The fixed year columns `[str(y) for y in range(1960, 2023)]`, after the
`pd.to_numeric` conversion back to integers. -/
def yearColumns : List Int := (List.range 63).map (fun (k : Nat) => 1960 + (k : Int))

/-- The observation row emitted by the melt for one record and one year. -/
def meltRow (rec : RawRecord) (y : Int) : Row :=
  ⟨rec.country, y, rec.gdp y⟩

/-- `load_data` (streamlit_app.py lines 82-92): `pd.melt` over the fixed year
columns. pandas' melt stacks one block per `value_vars` entry, so the output
enumerates the year columns in order and, inside each year block, the source
records in file order. -/
def load_data (raw : List RawRecord) : List Row :=
  (yearColumns.map (fun y => raw.map (fun rec => meltRow rec y))).flatten

/-- `filtered_df` (lines 152-156): boolean-mask conjunction of
`isin(selected_countries)`, `Year >= year_range[0]`, `Year <= year_range[1]`. -/
def filtered_df (rows : List Row) (sel : List String) (lo hi : Int) : List Row :=
  rows.filter (fun r => sel.contains r.country && decide (lo ≤ r.year) && decide (r.year ≤ hi))

/-- The `(Country Code, Year)` key of each row, in row order. -/
def keyList (rows : List Row) : List (String × Int) :=
  rows.map (fun r => (r.country, r.year))

/-- pandas `pivot`'s `ValueError: Index contains duplicate entries`. -/
inductive DataIntegrityError
  | dup
deriving DecidableEq

/-- The chart view: year → country → cell, where the outer `Option` is
"no such cell in the pivoted frame" and the inner `Option ℚ` is the
(possibly NaN) stored value. -/
def PivotedSeries := Int → String → Option (Option ℚ)

/-- The mapping a successful pivot builds: the unique row with the given
year and country supplies the cell value. -/
def pivotFun (rows : List Row) : PivotedSeries :=
  fun y c => (rows.find? (fun r => r.year == y && r.country == c)).map Row.gdp

/-- `chart_df = filtered_df.pivot(index="Year", columns="Country Code",
values="GDP")` (line 164): raises on duplicate (index, columns) pairs,
otherwise reshapes. -/
def pivot (rows : List Row) : Except DataIntegrityError PivotedSeries :=
  if (keyList rows).Nodup then .ok (pivotFun rows) else .error .dup

/-- `df[df["Year"] == y]` then `[df["Country Code"] == c]["GDP"].iat[0]`
(lines 170-171 and 180-181): filter the table by exact year, then by
country, and take the GDP of the first row. Outer `none` models the
`IndexError` that `.iat[0]` raises on an empty frame. -/
def lookupGDP (rows : List Row) (y : Int) (c : String) : Option (Option ℚ) :=
  (((rows.filter (fun r => r.year == y)).filter (fun r => r.country == c)).head?).map Row.gdp

/-- The fixed presentation divisor `1e9` of lines 180-181. -/
def divisor : ℚ := 1000000000

/-- NaN-propagating float division: NaN if either operand is NaN. -/
def optDiv (a b : Option ℚ) : Option ℚ :=
  match a, b with
  | some x, some y => some (x / y)
  | _, _ => none

/-- The growth figure shown in the metric card: `"n/a"` or the ratio
`last / first` (whose `none` is a propagated NaN). -/
inductive GrowthDisplay
  | notApplicable
  | ratio (r : Option ℚ)
deriving DecidableEq

/-- Outcome of one iteration of the per-country metric loop: either the
`except Exception` fallback ("Data not available") or a rendered metric
with its scaled value and growth figure. -/
inductive GrowthCell
  | unavailable
  | result (value : Option ℚ) (growth : GrowthDisplay)
deriving DecidableEq

/-- The scaled value of a rendered metric, when one was rendered. -/
def GrowthCell.value? : GrowthCell → Option (Option ℚ)
  | .unavailable => none
  | .result v _ => some v

/-- The metric body (lines 179-188) once the two `.iat[0]` lookups are in
hand: `first = gF / 1e9`, `last = gL / 1e9`, then
`if math.isnan(first) or first == 0` selects `"n/a"`, else the ratio
`last / first`. A failed lookup (either year) is the caught exception. -/
def metricOf (gF? gL? : Option (Option ℚ)) : GrowthCell :=
  match gF?, gL? with
  | some gF, some gL =>
    let first := gF.map (fun x => x / divisor)
    let last := gL.map (fun x => x / divisor)
    if first.isNone ∨ first = some 0 then
      .result last .notApplicable
    else
      .result last (.ratio (optDiv last first))
  | _, _ => .unavailable

/-- The whole per-country metric computation for one country: the two
year lookups run against the table handed in (the script hands in the
full `gdp_df`, lines 170-171), then the metric body. -/
def metricFor (rows : List Row) (fy ty : Int) (c : String) : GrowthCell :=
  metricOf (lookupGDP rows fy c) (lookupGDP rows ty c)

/-- The metric loop over `selected_countries` (line 176): one cell per
country, in the caller's order; each iteration has its own try/except,
so no iteration affects another. -/
def summarize (rows : List Row) (fy ty : Int) (cs : List String) : List GrowthCell :=
  cs.map (metricFor rows fy ty)

/-- The loader ordering the specification describes: country-major
(all rows of the first record, years ascending, then the second record,
and so on). Stated from the spec's words, for comparison with
`load_data`. -/
def load_data_countryMajor (raw : List RawRecord) : List Row :=
  (raw.map (fun rec => yearColumns.map (meltRow rec))).flatten

/-! ## Helper lemmas -/

theorem divisor_ne_zero : divisor ≠ 0 := by norm_num [divisor]

/-! ## Claims -/

/-- C1: for every country whose two endpoint lookups both return a row, the
growth figure is "n/a" exactly when the from-year GDP is NaN (`none`) or
exactly `0`; otherwise it is the unclamped ratio `gdp_to / gdp_from`
(NaN-propagating, possibly negative or arbitrarily large); and in the
zero-baseline case the rendered cell is never a ratio (so never `0` or
infinity). -/
theorem growth_ratio_cases (rows : List Row) (fy ty : Int) (c : String)
    (gF gL : Option ℚ)
    (hF : lookupGDP rows fy c = some gF) (hL : lookupGDP rows ty c = some gL) :
    ((gF = none ∨ gF = some 0) →
        metricFor rows fy ty c =
          .result (gL.map (fun x => x / divisor)) .notApplicable)
    ∧ (∀ q : ℚ, gF = some q → q ≠ 0 →
        metricFor rows fy ty c =
          .result (gL.map (fun x => x / divisor)) (.ratio (gL.map (fun x => x / q))))
    ∧ (gF = some 0 → ∀ v r, metricFor rows fy ty c ≠ .result v (.ratio r)) := by
  unfold metricFor
  rw [hF, hL]
  have hratio : ∀ q : ℚ, q ≠ 0 →
      metricOf (some (some q)) (some gL) =
        .result (gL.map (fun x => x / divisor)) (.ratio (gL.map (fun x => x / q))) := by
    intro q hq
    have h1 : (q / divisor) ≠ 0 := by
      simp [div_eq_zero_iff, hq, divisor_ne_zero]
    simp only [metricOf, Option.map_some', Option.isNone_some, Bool.false_eq_true,
      false_or, Option.some.injEq, if_neg h1]
    cases gL with
    | none => rfl
    | some l =>
      simp only [Option.map_some', optDiv, GrowthCell.result.injEq, GrowthDisplay.ratio.injEq,
        Option.some.injEq, true_and]
      rw [div_div_div_comm, div_self divisor_ne_zero, div_one]
  refine ⟨?_, ?_, ?_⟩
  · rintro (rfl | rfl)
    · simp [metricOf]
    · simp [metricOf, zero_div]
  · rintro q rfl hq
    exact hratio q hq
  · rintro rfl v r
    simp [metricOf, zero_div]

/-- C1 witness: a concrete nonzero baseline (2 at 2010, 6 at 2022) yields
the unclamped ratio 6/2. -/
theorem growth_ratio_cases_applied :
    metricFor [⟨"AAA", 2010, some 2⟩, ⟨"AAA", 2022, some 6⟩] 2010 2022 "AAA" =
      .result ((some (6 : ℚ)).map (fun x => x / divisor))
        (.ratio ((some (6 : ℚ)).map (fun x => x / 2))) :=
  (growth_ratio_cases [⟨"AAA", 2010, some 2⟩, ⟨"AAA", 2022, some 6⟩]
    2010 2022 "AAA" (some 2) (some 6) (by decide) (by decide)).2.1 2 rfl (by norm_num)

/-- C2: the filter stage returns exactly the rows whose country is among the
selected ones and whose year lies in the inclusive range: the result is a
sublist of the input (order preserved), membership is characterised by the
conjunction of the three mask conditions, and an empty selection yields the
empty list (the function is total, so no error is possible). -/
theorem filtered_df_exact (rows : List Row) (sel : List String) (lo hi : Int) :
    (filtered_df rows sel lo hi).Sublist rows
    ∧ (∀ r : Row, r ∈ filtered_df rows sel lo hi ↔
        r ∈ rows ∧ r.country ∈ sel ∧ lo ≤ r.year ∧ r.year ≤ hi)
    ∧ (sel = [] → filtered_df rows sel lo hi = []) := by
  refine ⟨List.filter_sublist rows, ?_, ?_⟩
  · intro r
    simp [filtered_df, List.mem_filter, List.elem_iff, and_assoc]
  · rintro rfl
    simp [filtered_df]

/-- C2 witness: instantiation of the characterisation on a concrete table,
including the empty-selection case. -/
theorem filtered_df_exact_applied :
    (⟨"AAA", 2011, some 5⟩ ∈ filtered_df [⟨"AAA", 2011, some 5⟩] ["AAA"] 2010 2022 ↔
      ⟨"AAA", 2011, some 5⟩ ∈ [(⟨"AAA", 2011, some 5⟩ : Row)] ∧
        "AAA" ∈ ["AAA"] ∧ (2010 : Int) ≤ 2011 ∧ (2011 : Int) ≤ 2022)
    ∧ filtered_df [⟨"AAA", 2011, some 5⟩] [] 2010 2022 = [] :=
  ⟨(filtered_df_exact [⟨"AAA", 2011, some 5⟩] ["AAA"] 2010 2022).2.1 _,
   (filtered_df_exact [⟨"AAA", 2011, some 5⟩] [] 2010 2022).2.2 rfl⟩

/-- C9: an inverted year range (`from_year > to_year`) makes the two mask
conditions contradictory, so the filter returns the empty list — the bounds
are never swapped, and no row of the inverted interval is returned. -/
theorem inverted_range_empty (rows : List Row) (sel : List String) (lo hi : Int)
    (h : hi < lo) : filtered_df rows sel lo hi = [] := by
  rw [filtered_df, List.filter_eq_nil_iff]
  intro r _
  simp only [Bool.and_eq_true, decide_eq_true_eq]
  rintro ⟨⟨-, h1⟩, h2⟩
  omega

/-- C9 witness: the spec's concrete scenario `from_year = 2015 > to_year = 2010`
on a nonempty table whose rows lie in the inverted interval. -/
theorem inverted_range_empty_applied :
    filtered_df [⟨"AAA", 2012, some 5⟩, ⟨"BBB", 2013, some 7⟩] ["AAA", "BBB"] 2015 2010 = [] :=
  inverted_range_empty _ _ 2015 2010 (by norm_num)

/-- C4: a country with no row at `to_year` (in particular a country absent
from the table) yields the `unavailable` cell, a value distinct by
construction from every rendered metric (hence from "not applicable"); the
loop is a pointwise map, so the surrounding countries' cells are computed
exactly as they would be alone — no exception escapes and no sibling
computation is aborted. -/
theorem missing_to_year_unavailable (rows : List Row) (fy ty : Int) (c : String)
    (cs₁ cs₂ : List String) (h : lookupGDP rows ty c = none) :
    metricFor rows fy ty c = .unavailable
    ∧ (∀ v g, GrowthCell.unavailable ≠ GrowthCell.result v g)
    ∧ summarize rows fy ty (cs₁ ++ c :: cs₂) =
        summarize rows fy ty cs₁ ++ .unavailable :: summarize rows fy ty cs₂ := by
  have h1 : metricFor rows fy ty c = .unavailable := by
    unfold metricFor
    rw [h]
    cases lookupGDP rows fy c <;> rfl
  refine ⟨h1, ?_, ?_⟩
  · intro v g
    simp
  · simp [summarize, h1]

/-- C4 witness: the country `"ZZZ"` is absent from a concrete one-row table;
its cell is `unavailable` and the neighbouring country's cell is unaffected. -/
theorem missing_to_year_unavailable_applied :
    metricFor [⟨"AAA", 2010, some 1⟩] 2010 2022 "ZZZ" = .unavailable
    ∧ summarize [⟨"AAA", 2010, some 1⟩] 2010 2022 (["AAA"] ++ "ZZZ" :: ["BBB"]) =
        summarize [⟨"AAA", 2010, some 1⟩] 2010 2022 ["AAA"] ++
          .unavailable :: summarize [⟨"AAA", 2010, some 1⟩] 2010 2022 ["BBB"] :=
  ⟨(missing_to_year_unavailable [⟨"AAA", 2010, some 1⟩] 2010 2022 "ZZZ"
      ["AAA"] ["BBB"] (by decide)).1,
   (missing_to_year_unavailable [⟨"AAA", 2010, some 1⟩] 2010 2022 "ZZZ"
      ["AAA"] ["BBB"] (by decide)).2.2⟩

/-- C10: the "Data not available" fallback fires exactly when one of the two
positional lookups finds no row; a present row whose GDP is NaN at `to_year`
(with a valid nonzero baseline) is not "unavailable" — the computation
proceeds and renders a NaN value with a NaN-propagated ratio. -/
theorem nan_to_year_propagates (rows : List Row) (fy ty : Int) (c : String) (q : ℚ)
    (hF : lookupGDP rows fy c = some (some q)) (hq : q ≠ 0)
    (hL : lookupGDP rows ty c = some none) :
    metricFor rows fy ty c = .result none (.ratio none)
    ∧ (∀ (rows' : List Row) (fy' ty' : Int) (c' : String),
        metricFor rows' fy' ty' c' = .unavailable ↔
          (lookupGDP rows' fy' c' = none ∨ lookupGDP rows' ty' c' = none)) := by
  constructor
  · unfold metricFor
    rw [hF, hL]
    have h1 : (q / divisor) ≠ 0 := by simp [div_eq_zero_iff, hq, divisor_ne_zero]
    simp [metricOf, optDiv, h1]
  · intro rows' fy' ty' c'
    unfold metricFor
    cases hA : lookupGDP rows' fy' c' <;> cases hB : lookupGDP rows' ty' c'
    · simp [metricOf]
    · simp [metricOf]
    · simp [metricOf]
    · simp only [metricOf]
      split <;> simp

/-- C10 witness: `"AAA"` has a valid baseline 1 at 2010 and a NaN cell at
2022; the rendered cell is a NaN value with NaN ratio, not `unavailable`. -/
theorem nan_to_year_propagates_applied :
    metricFor [⟨"AAA", 2010, some 1⟩, ⟨"AAA", 2022, none⟩] 2010 2022 "AAA" =
      .result none (.ratio none) :=
  (nan_to_year_propagates [⟨"AAA", 2010, some 1⟩, ⟨"AAA", 2022, none⟩]
    2010 2022 "AAA" 1 (by decide) (by norm_num) (by decide)).1

/-- C8: whenever both endpoint lookups find a row, the rendered value is the
`to_year` GDP divided by the fixed presentation divisor `1e9`, regardless of
which growth branch is taken. -/
theorem value_at_to_year_scaled (rows : List Row) (fy ty : Int) (c : String)
    (gF gL : Option ℚ)
    (hF : lookupGDP rows fy c = some gF) (hL : lookupGDP rows ty c = some gL) :
    (metricFor rows fy ty c).value? = some (gL.map (fun x => x / divisor)) := by
  unfold metricFor
  rw [hF, hL]
  simp only [metricOf]
  split <;> rfl

/-- The spec's concrete scenario record: `DEU` with `gdp[2010] = 3.4e12`
and `gdp[2022] = 4.2e12`, all other years blank. -/
def deuRec : RawRecord :=
  ⟨"DEU", fun y => if y = 2010 then some 3400000000000 else
    if y = 2022 then some 4200000000000 else none⟩

/-- C8 witness: on the loaded `DEU` table, the value is
`4.2e12 / 1e9 = 4200` (billions) and the ratio is `21/17 ≈ 1.235`
(within `0.001`). -/
theorem value_at_to_year_scaled_applied :
    (metricFor (load_data [deuRec]) 2010 2022 "DEU").value? =
        some ((some (4200000000000 : ℚ)).map (fun x => x / divisor))
    ∧ (some (4200000000000 : ℚ)).map (fun x => x / divisor) = some 4200
    ∧ metricFor (load_data [deuRec]) 2010 2022 "DEU" =
        .result (some 4200) (.ratio (some (21 / 17)))
    ∧ (21 / 17 - 1235 / 1000 : ℚ) < 1 / 1000 ∧ (1235 / 1000 - 21 / 17 : ℚ) < 1 / 1000 :=
  ⟨value_at_to_year_scaled (load_data [deuRec]) 2010 2022 "DEU"
      (some 3400000000000) (some 4200000000000) (by decide) (by decide),
   by norm_num [divisor],
   by
    have hF : lookupGDP (load_data [deuRec]) 2010 "DEU" = some (some 3400000000000) := by
      decide
    have hL : lookupGDP (load_data [deuRec]) 2022 "DEU" = some (some 4200000000000) := by
      decide
    unfold metricFor
    rw [hF, hL]
    simp only [metricOf, Option.map_some', optDiv]
    norm_num [divisor],
   by norm_num, by norm_num⟩

/-- The two chained lookup filters (year, then country) see the same rows
before and after the chart's mask, provided the country is selected and the
looked-up year lies inside the mask's range. -/
theorem lookupGDP_filtered (rows : List Row) (sel : List String) (lo hi : Int)
    (y : Int) (c : String) (hc : c ∈ sel) (h1 : lo ≤ y) (h2 : y ≤ hi) :
    lookupGDP (filtered_df rows sel lo hi) y c = lookupGDP rows y c := by
  unfold lookupGDP filtered_df
  simp only [List.filter_filter]
  refine congrArg (fun l : List Row => (l.head?).map Row.gdp) (List.filter_congr ?_)
  intro r _
  cases hcb : (r.country == c) with
  | false => simp [hcb]
  | true =>
    cases hyb : (r.year == y) with
    | false => simp [hcb, hyb]
    | true =>
      have hy1 : r.year = y := by simpa using hyb
      have hm : r.country ∈ sel := by
        have hc1 : r.country = c := by simpa using hcb
        rw [hc1]; exact hc
      have d1 : decide (lo ≤ r.year) = true := by rw [hy1]; exact decide_eq_true h1
      have d2 : decide (r.year ≤ hi) = true := by rw [hy1]; exact decide_eq_true h2
      simp [hcb, hyb, hm, d1, d2, List.elem_iff]

/-- C3: the growth metric for a selected country is computed against the
full table (the script passes `gdp_df`, not `filtered_df`, at lines
170-171), so it coincides with what the chart's filtered subset would give
whenever that subset retains the endpoint years — the chart's year-range
filtering cannot change it. -/
theorem metric_unaffected_by_filter (rows : List Row) (sel : List String)
    (lo hi fy ty : Int) (c : String) (hc : c ∈ sel)
    (h1 : lo ≤ fy) (h2 : fy ≤ hi) (h3 : lo ≤ ty) (h4 : ty ≤ hi) :
    metricFor (filtered_df rows sel lo hi) fy ty c = metricFor rows fy ty c := by
  unfold metricFor
  rw [lookupGDP_filtered rows sel lo hi fy c hc h1 h2,
      lookupGDP_filtered rows sel lo hi ty c hc h3 h4]

/-- Indexing the loader's output: the flattened per-year blocks place the
`j`-th record melted at the `i`-th year column at position
`i * |raw| + j`. -/
theorem load_blocks_getElem (raw : List RawRecord) (ys : List Int) :
    ∀ (i j : Nat), j < raw.length →
      ((ys.map (fun y => raw.map (fun rec => meltRow rec y))).flatten)[i * raw.length + j]? =
        ys[i]?.bind (fun y => raw[j]?.map (fun rec => meltRow rec y)) := by
  induction ys with
  | nil => intro i j hj; simp
  | cons y ys ih =>
    intro i j hj
    cases i with
    | zero =>
      simp only [List.map_cons, List.flatten_cons, Nat.zero_mul, Nat.zero_add]
      rw [List.getElem?_append_left (by simpa using hj)]
      simp
    | succ i =>
      simp only [List.map_cons, List.flatten_cons]
      have key : (i + 1) * raw.length + j =
          (List.map (fun rec => meltRow rec y) raw).length + (i * raw.length + j) := by
        simp only [List.length_map]
        rw [Nat.succ_mul]
        omega
      rw [key, List.getElem?_append_right (Nat.le_add_right _ _), Nat.add_sub_cancel_left]
      simpa using ih i j hj

/-- The `i`-th year column is `1960 + i`. -/
theorem yearColumns_getElem (i : Nat) (h : i < 63) :
    yearColumns[i]? = some (1960 + (i : Int)) := by
  unfold yearColumns
  rw [List.getElem?_map, List.getElem?_range h]
  rfl

/-- The year columns are pairwise distinct. -/
theorem yearColumns_nodup : yearColumns.Nodup := by
  unfold yearColumns
  refine List.Nodup.map ?_ (List.nodup_range 63)
  intro a b hab
  have hab' : (1960 : Int) + a = 1960 + b := hab
  omega

/-- A concrete two-record wide table (all cells blank), used to exhibit the
loader's actual row order. -/
def rawPair : List RawRecord := [⟨"AAA", fun _ => none⟩, ⟨"BBB", fun _ => none⟩]

set_option maxRecDepth 10000

/-- C5 (corrected): the loader's output is NOT country-major. On a concrete
two-record table the melt differs from the spec's country-major enumeration:
the row at position 1 belongs to the second record while a row of the first
record still follows at position 2, so the first record's rows do not all
precede the second's. -/
theorem load_order_not_country_major :
    load_data rawPair ≠ load_data_countryMajor rawPair
    ∧ ((load_data rawPair)[1]?).map Row.country = some "BBB"
    ∧ ((load_data rawPair)[2]?).map Row.country = some "AAA" :=
  ⟨by decide, by decide, by decide⟩

/-- C5 (amended): the loader's output is year-major, years ascending over the
fixed columns 1960..2022, and inside each year block the records appear in
input order: position `i * |raw| + j` holds record `j` melted at year
`1960 + i`. -/
theorem load_order_year_major (raw : List RawRecord) (i j : Nat)
    (hi : i < 63) (hj : j < raw.length) :
    (load_data raw)[i * raw.length + j]? =
      raw[j]?.map (fun rec => meltRow rec (1960 + (i : Int))) := by
  unfold load_data
  rw [load_blocks_getElem raw yearColumns i j hj, yearColumns_getElem i hi]
  rfl

/-- C5 witness: on the two-record table, position `1 * 2 + 0` holds the
first record melted at year 1961. -/
theorem load_order_year_major_applied :
    (load_data rawPair)[1 * rawPair.length + 0]? =
      rawPair[0]?.map (fun rec => meltRow rec (1960 + ((1 : Nat) : Int))) :=
  load_order_year_major rawPair 1 0 (by norm_num) (by norm_num [rawPair])

/-- C3 witness: a concrete three-row table with a second country; filtering
to the selection and the year window leaves the metric unchanged. -/
theorem metric_unaffected_by_filter_applied :
    metricFor (filtered_df [⟨"AAA", 2010, some 1⟩, ⟨"AAA", 2022, some 2⟩,
        ⟨"BBB", 2010, some 3⟩] ["AAA"] 2010 2022) 2010 2022 "AAA" =
      metricFor [⟨"AAA", 2010, some 1⟩, ⟨"AAA", 2022, some 2⟩,
        ⟨"BBB", 2010, some 3⟩] 2010 2022 "AAA" :=
  metric_unaffected_by_filter _ ["AAA"] 2010 2022 2010 2022 "AAA"
    (by decide) (by norm_num) (by norm_num) (by norm_num) (by norm_num)

/-- Melting a one-record table gives one row per year column. -/
theorem flatten_singleton (rec : RawRecord) (ys : List Int) :
    (ys.map (fun y => [rec].map (fun r => meltRow r y))).flatten = ys.map (meltRow rec) := by
  induction ys with
  | nil => rfl
  | cons y ys ih => simp_all

/-- `load_data` on a single record is the melt of that record alone. -/
theorem load_single (rec : RawRecord) :
    load_data [rec] = yearColumns.map (meltRow rec) := by
  unfold load_data
  exact flatten_singleton rec yearColumns

/-- The keys of a one-record load are the record's country paired with each
year column. -/
theorem keyList_load_single (rec : RawRecord) :
    keyList (load_data [rec]) = yearColumns.map (fun y => (rec.country, y)) := by
  rw [load_single]
  unfold keyList
  rw [List.map_map]
  rfl

/-- `find?` over the melt of one record, keyed by an occurring year and the
record's own country, returns that year's melted row. -/
theorem find?_melt (rec : RawRecord) (y : Int) :
    ∀ ys : List Int, y ∈ ys →
      (ys.map (meltRow rec)).find?
          (fun r => r.year == y && r.country == rec.country) =
        some (meltRow rec y) := by
  intro ys
  induction ys with
  | nil => intro hy; cases hy
  | cons y' ys ih =>
    intro hy
    rw [List.map_cons]
    by_cases h : y' = y
    · subst h
      rw [List.find?_cons_of_pos]
      simp [meltRow]
    · rw [List.find?_cons_of_neg]
      · exact ih (List.mem_of_ne_of_mem (fun hh => h hh.symm) hy)
      · simp [meltRow, h]

/-- C6: for a single-country wide record, melting and then pivoting is
lossless: the pivot succeeds (the melt's keys are unique) and the pivoted
cell at any year of the fixed range and the record's country is exactly the
record's original value for that year (including a missing one). -/
theorem melt_pivot_round_trip (rec : RawRecord) (y : Int)
    (h1 : 1960 ≤ y) (h2 : y ≤ 2022) :
    pivot (load_data [rec]) = .ok (pivotFun (load_data [rec]))
    ∧ pivotFun (load_data [rec]) y rec.country = some (rec.gdp y) := by
  have hmem : y ∈ yearColumns := by
    unfold yearColumns
    simp only [List.mem_map, List.mem_range]
    exact ⟨(y - 1960).toNat, by omega, by omega⟩
  have hnodup : (keyList (load_data [rec])).Nodup := by
    rw [keyList_load_single]
    refine List.Nodup.map ?_ yearColumns_nodup
    intro a b hab
    exact congrArg Prod.snd hab
  constructor
  · unfold pivot
    rw [if_pos hnodup]
  · unfold pivotFun
    rw [load_single, find?_melt rec y yearColumns hmem]
    rfl

/-- A concrete one-record wide table with every year filled. -/
def fraRec : RawRecord := ⟨"FRA", fun _ => some 7⟩

/-- C6 witness: the round trip on a concrete record at year 2000. -/
theorem melt_pivot_round_trip_applied :
    pivot (load_data [fraRec]) = .ok (pivotFun (load_data [fraRec]))
    ∧ pivotFun (load_data [fraRec]) 2000 fraRec.country = some (fraRec.gdp 2000) :=
  melt_pivot_round_trip fraRec 2000 (by norm_num) (by norm_num)

/-- C7: `pivot` raises `DataIntegrityError` on any input containing a
duplicate `(country_code, year)` key (a key occurring at least twice), and
succeeds — returning the reshaped mapping — on any input whose keys are
unique. -/
theorem pivot_duplicate_check (rows : List Row) (p : String × Int) :
    ([p, p].Sublist (keyList rows) → pivot rows = .error .dup)
    ∧ ((keyList rows).Nodup → pivot rows = .ok (pivotFun rows)) := by
  constructor
  · intro h
    unfold pivot
    rw [if_neg]
    intro hnd
    exact List.nodup_iff_sublist.mp hnd p h
  · intro h
    unfold pivot
    rw [if_pos h]

/-- Rows with a duplicated `(FRA, 2000)` key. -/
def dupRows : List Row := [⟨"FRA", 2000, some 1⟩, ⟨"FRA", 2000, some 2⟩]

/-- Rows with unique keys. -/
def okRows : List Row := [⟨"FRA", 2000, some 1⟩, ⟨"FRA", 2001, some 2⟩]

/-- C7 witness: the spec's concrete duplicated `(FRA, 2000)` pair raises,
and a unique-key variant succeeds. -/
theorem pivot_duplicate_check_applied :
    pivot dupRows = .error .dup ∧ pivot okRows = .ok (pivotFun okRows) :=
  ⟨(pivot_duplicate_check dupRows ("FRA", 2000)).1 (List.Sublist.refl _),
   (pivot_duplicate_check okRows ("FRA", 2000)).2 (by decide)⟩

end GDP
